import Mathlib

/-
Verification of the Bachpan Balance habit tracker
(src/v1_streamlit/app.py) against its natural-language specification.

The app's core is shallowly embedded: Python ints are modelled as Nat/Int,
Python floats as exact rationals, dicts of badges as association lists, and
one Streamlit script rerun as a pure state-transition function
(`rerun`) parameterised by the current widget inputs and the (at most one)
button pressed during that rerun.
-/

namespace BachpanBalance

/-! ### Calendar dates (`datetime.date`)

`dt.date.fromisoformat` / `toordinal` / `isoformat` are modelled for the
dashed `YYYY-MM-DD` form that the app itself writes via `isoformat()`.
`toOrdinal` is the proleptic-Gregorian ordinal (0001-01-01 is day 1),
exactly Python's `date.toordinal`. -/

def isLeap (y : ℕ) : Bool := (y % 4 == 0 && y % 100 != 0) || y % 400 == 0

def monthLengths : List ℕ := [31, 28, 31, 30, 31, 30, 31, 31, 30, 31, 30, 31]

def daysInMonth (y m : ℕ) : ℕ :=
  if m == 2 && isLeap y then 29 else monthLengths.getD (m - 1) 0

def daysBeforeMonth (y m : ℕ) : ℕ :=
  ((List.range (m - 1)).map (fun i => daysInMonth y (i + 1))).sum

structure PyDate where
  year : ℕ
  month : ℕ
  day : ℕ
deriving DecidableEq

def PyDate.toOrdinal (d : PyDate) : ℕ :=
  let y := d.year - 1
  365 * y + y / 4 - y / 100 + y / 400 + daysBeforeMonth d.year d.month + d.day

/-- `(a - b).days` for two `datetime.date` values. -/
def dateDiffDays (a b : PyDate) : ℤ :=
  (a.toOrdinal : ℤ) - (b.toOrdinal : ℤ)

def digitVal (c : Char) : ℕ := c.toNat - '0'.toNat

/-- `datetime.date.fromisoformat` on the dashed form; `none` models the
`ValueError` branch (the app catches it with `except`). -/
def PyDate.fromIso (s : String) : Option PyDate :=
  match s.data with
  | [y1, y2, y3, y4, h1, m1, m2, h2, d1, d2] =>
    if y1.isDigit ∧ y2.isDigit ∧ y3.isDigit ∧ y4.isDigit ∧ h1 = '-' ∧
       m1.isDigit ∧ m2.isDigit ∧ h2 = '-' ∧ d1.isDigit ∧ d2.isDigit then
      let y := 1000 * digitVal y1 + 100 * digitVal y2 + 10 * digitVal y3 + digitVal y4
      let m := 10 * digitVal m1 + digitVal m2
      let d := 10 * digitVal d1 + digitVal d2
      if 1 ≤ y ∧ y ≤ 9999 ∧ 1 ≤ m ∧ m ≤ 12 ∧ 1 ≤ d ∧ d ≤ daysInMonth y m then
        some ⟨y, m, d⟩
      else none
    else none
  | _ => none

def natPad (width n : ℕ) : String :=
  let s := Nat.repr n
  String.mk (List.replicate (width - s.length) '0') ++ s

/-- `date.isoformat()`. -/
def PyDate.toIso (d : PyDate) : String :=
  natPad 4 d.year ++ "-" ++ natPad 2 d.month ++ "-" ++ natPad 2 d.day

/-! ### Recommendation engine: `calculate_water_intake` (app.py 160-202) -/

/-- Python's banker's rounding `round(q)` (ties to even). -/
def roundHalfEven (q : ℚ) : ℤ :=
  if q - ⌊q⌋ < 1/2 then ⌊q⌋
  else if 1/2 < q - ⌊q⌋ then ⌊q⌋ + 1
  else if ⌊q⌋ % 2 = 0 then ⌊q⌋ else ⌊q⌋ + 1

/-- Python's `round(q, 2)` on exact rationals. -/
def pyRound2 (q : ℚ) : ℚ := (roundHalfEven (q * 100) : ℚ) / 100

/-- `base_ml` of app.py 174-177: weight-based estimate with a 1200 ml
fallback for non-positive weight (unparseable weight enters as 0). -/
def base_ml_calc (weight : ℚ) : ℚ := if weight > 0 then weight * 35 else 1200

/-- `min_ml` of app.py 180-190: the minimum-by-age-and-gender ladder. -/
def min_ml_calc (age : ℤ) (gender : String) : ℚ :=
  if age ≤ 3 then 1000
  else if 4 ≤ age ∧ age ≤ 8 then 1200
  else if 9 ≤ age ∧ age ≤ 13 then (if gender.toLower = "girl" then 1400 else 1600)
  else if 14 ≤ age ∧ age ≤ 18 then (if gender.toLower = "girl" then 1800 else 2400)
  else 2000

structure WaterRec where
  ml : ℤ
  liters : ℚ
  glasses : ℤ
  glass_ml : ℤ
deriving DecidableEq

/-- app.py 160-202 (`height` is accepted and ignored, as in the source). -/
def calculate_water_intake (age : ℤ) (gender : String) (weight : ℚ)
    (height : ℚ) : WaterRec :=
  let water_ml := max (base_ml_calc weight) (min_ml_calc age gender)
  { ml := roundHalfEven water_ml
    liters := pyRound2 (water_ml / 1000)
    glasses := ⌈water_ml / 250⌉
    glass_ml := 250 }

/-- Modelled from the spec (section 4.1): the minimum table as the spec
words it, for the refinement claims C2/C4. -/
def minTable (age : ℤ) (gender : String) : ℚ :=
  if age ≤ 3 then 1000
  else if age ≤ 8 then 1200
  else if age ≤ 13 then (if gender.toLower = "girl" then 1400 else 1600)
  else if age ≤ 18 then (if gender.toLower = "girl" then 1800 else 2400)
  else 2000

/-- Modelled from the spec (section 8): `ceil(max(w*35, minTable(a,g)) / 250)`. -/
def specGlasses (age : ℤ) (gender : String) (w : ℚ) : ℤ :=
  ⌈(max (w * 35) (minTable age gender)) / 250⌉

/-! ### Reward ledger: static tables (app.py 92-96, 204-229) -/

def BADGE_LADDER : List String := ["Bronze", "Silver", "Gold", "Legend"]

def THRESHOLDS_hydration : List ℚ := [0.25, 0.5, 0.8, 1.0]

/-- `award_level` of app.py 204-215. -/
def award_level (progress_ratio : ℚ) : String :=
  if progress_ratio ≥ THRESHOLDS_hydration.getD 3 0 then BADGE_LADDER.getD 3 ""
  else if progress_ratio ≥ THRESHOLDS_hydration.getD 2 0 then BADGE_LADDER.getD 2 ""
  else if progress_ratio ≥ THRESHOLDS_hydration.getD 1 0 then BADGE_LADDER.getD 1 ""
  else if progress_ratio ≥ THRESHOLDS_hydration.getD 0 0 then BADGE_LADDER.getD 0 ""
  else ""

/-- `xp_for` of app.py 217-229 (`dict.get` with default 1). -/
def xp_for (action : String) : ℤ :=
  if action = "water_glass" then 5
  else if action = "fruit" then 8
  else if action = "protein" then 8
  else if action = "school" then 10
  else if action = "outdoor" then 10
  else if action = "indoor" then 8
  else if action = "exam_5min" then 2
  else if action = "screen_create_10min" then 4
  else if action = "day_complete" then 30
  else 1

/-- `BADGE_LADDER[min(3, count-1)]`, the count-based tier used for the
fruit and protein badges (app.py 369-371, 390-391). -/
def countTier (n : ℕ) : String := BADGE_LADDER.getD (min 3 (n - 1)) ""

/-- Rank of a tier name on the Bronze < Silver < Gold < Legend ladder
(0 for "no badge"). -/
def tierRank (t : String) : ℕ :=
  if t = "Bronze" then 1
  else if t = "Silver" then 2
  else if t = "Gold" then 3
  else if t = "Legend" then 4
  else 0

/-! ### Data model (profile dict and today's day record, app.py 34-45, 280-300) -/

structure WaterDay where
  glasses : ℤ
  target_glasses : ℤ
  target_ml : ℤ
deriving DecidableEq

structure ScreenDay where
  create : ℕ
  fun_minutes : ℕ
  limit : ℕ
deriving DecidableEq

structure DayRecord where
  water : WaterDay
  fruit_items : List String
  protein_items : List String
  school_work : Bool
  outdoor : List String
  indoor : List String
  exam_prep_min : ℕ
  screen : ScreenDay
  completed : Bool
deriving DecidableEq

/-- The reward-relevant part of the profile dict.  Identity fields
(name/gender/age/weight/height) are overwritten from the widgets on every
rerun (app.py 267-272) and are carried by `Inputs` instead. -/
structure Profile where
  xp : ℤ
  badges : List (String × String)
  streak : ℕ
  last_day : Option String
deriving DecidableEq

structure AppState where
  profile : Profile
  day : DayRecord
deriving DecidableEq

/-- Python dict assignment `m[k] = v` on an association list. -/
def dictSet : List (String × String) → String → String → List (String × String)
  | [], k, v => [(k, v)]
  | (k', v') :: rest, k, v =>
    if k' = k then (k, v) :: rest else (k', v') :: dictSet rest k v

/-- Python dict lookup `m.get(k)` on an association list. -/
def dictGet : List (String × String) → String → Option String
  | [], _ => none
  | (k', v') :: rest, k => if k' = k then some v' else dictGet rest k

/-- Rank of the tier recorded for category `k` (0 when no badge recorded). -/
def getBadgeRank (p : Profile) (k : String) : ℕ :=
  tierRank ((dictGet p.badges k).getD "")

/-! ### One Streamlit rerun as a state transition

The script body runs top to bottom on every interaction; the widget values
current during that rerun are the `Inputs`, and at most one button reports
pressed.  Each handler below embeds the correspondingly numbered lines of
app.py. -/

structure Inputs where
  gender : String
  age : ℤ
  weight : ℚ
  height : ℚ
  parent_limit : ℕ
  fruit_choice : String
  other_fruit : String
  protein_sel : List String
  school_done : Bool
  outdoor_sel : List String
  indoor_sel : List String
  exam_min : ℕ
  create_min : ℕ
  fun_minutes : ℕ
  today : PyDate

inductive Button where
  | idle
  | drink
  | addFruit
  | saveProtein
  | saveOutdoor
  | saveIndoor
  | saveExam
  | saveScreen
  | complete
deriving DecidableEq, BEq

/-- app.py 292-300: today's water targets are overwritten from the current
`calculate_water_intake` result on every rerun. -/
def targetsUpdate (inp : Inputs) (s : AppState) : AppState :=
  let wr := calculate_water_intake inp.age inp.gender inp.weight inp.height
  { s with day := { s.day with water :=
      { s.day.water with target_glasses := wr.glasses, target_ml := wr.ml } } }

/-- app.py 331-333: the "I drank 1 glass" button. -/
def drinkHandler (s : AppState) : AppState :=
  { s with
    day := { s.day with water := { s.day.water with glasses := s.day.water.glasses + 1 } }
    profile := { s.profile with xp := s.profile.xp + xp_for "water_glass" } }

/-- app.py 335: `min(1.0, glasses / max(1, target_glasses))`. -/
def hydration_progress (d : DayRecord) : ℚ :=
  min 1 ((d.water.glasses : ℚ) / ((max 1 d.water.target_glasses : ℤ) : ℚ))

/-- app.py 338-342: the hydration badge snapshot written on every rerun. -/
def hydrationBadgeUpdate (s : AppState) : AppState :=
  let level := award_level (hydration_progress s.day)
  if level ≠ "" then
    { s with profile :=
        { s.profile with badges := dictSet s.profile.badges "hydration" level } }
  else s

/-- app.py 357-361: the "Add fruit" button. -/
def fruitHandler (fruit_choice other_fruit : String) (s : AppState) : AppState :=
  let item := if fruit_choice = "Other" then other_fruit.trim else fruit_choice
  if item ≠ "" then
    { s with
      day := { s.day with fruit_items := s.day.fruit_items ++ [item] }
      profile := { s.profile with xp := s.profile.xp + xp_for "fruit" } }
  else s

/-- app.py 369-374: the fruit badge written on every rerun with ≥ 1 item. -/
def fruitBadgeUpdate (s : AppState) : AppState :=
  if s.day.fruit_items.length ≥ 1 then
    { s with profile := { s.profile with
        badges := dictSet s.profile.badges "fruit" (countTier s.day.fruit_items.length) } }
  else s

/-- app.py 383-386: the "Save protein" button (`list(set(old + sel))`). -/
def proteinHandler (protein_sel : List String) (s : AppState) : AppState :=
  let s1 := { s with day :=
    { s.day with protein_items := (s.day.protein_items ++ protein_sel).dedup } }
  if protein_sel ≠ [] then
    { s1 with profile := { s1.profile with xp := s1.profile.xp + xp_for "protein" } }
  else s1

/-- app.py 388-394: the protein badge written on every rerun with items. -/
def proteinBadgeUpdate (s : AppState) : AppState :=
  if s.day.protein_items ≠ [] then
    { s with profile := { s.profile with
        badges := dictSet s.profile.badges "protein" (countTier s.day.protein_items.length) } }
  else s

/-- app.py 402-406: the schoolwork checkbox, evaluated on every rerun. -/
def schoolHandler (school_done : Bool) (s : AppState) : AppState :=
  let s1 :=
    if school_done && !s.day.school_work then
      { s with profile := { s.profile with xp := s.profile.xp + xp_for "school" } }
    else s
  { s1 with day := { s1.day with school_work := school_done } }

/-- app.py 418-421: the "Save outdoor play" button. -/
def outdoorHandler (outdoor_sel : List String) (s : AppState) : AppState :=
  let s1 := { s with day := { s.day with outdoor := outdoor_sel } }
  if outdoor_sel ≠ [] then
    { s1 with profile := { s1.profile with xp := s1.profile.xp + xp_for "outdoor" } }
  else s1

/-- app.py 436-439: the "Save indoor play" button. -/
def indoorHandler (indoor_sel : List String) (s : AppState) : AppState :=
  let s1 := { s with day := { s.day with indoor := indoor_sel } }
  if indoor_sel ≠ [] then
    { s1 with profile := { s1.profile with xp := s1.profile.xp + xp_for "indoor" } }
  else s1

/-- app.py 454-456: the "Save study time" button. -/
def examHandler (exam_min : ℕ) (s : AppState) : AppState :=
  let s1 := { s with day := { s.day with exam_prep_min := exam_min } }
  { s1 with profile := { s1.profile with
      xp := s1.profile.xp + xp_for "exam_5min" * ((exam_min / 5 : ℕ) : ℤ) } }

/-- app.py 473-477: the "Save screen time" button. -/
def screenHandler (create_min fun_minutes parent_limit : ℕ) (s : AppState) : AppState :=
  let s1 := { s with day := { s.day with screen :=
    { create := create_min, fun_minutes := fun_minutes, limit := parent_limit } } }
  { s1 with profile := { s1.profile with
      xp := s1.profile.xp + xp_for "screen_create_10min" * ((create_min / 10 : ℕ) : ℤ) } }

/-- app.py 503-509. -/
def other_hits (d : DayRecord) : ℕ :=
  (if d.fruit_items ≠ [] then 1 else 0) +
  (if d.protein_items ≠ [] then 1 else 0) +
  (if d.school_work then 1 else 0) +
  (if d.outdoor ≠ [] then 1 else 0) +
  (if d.indoor ≠ [] then 1 else 0) +
  (if 10 ≤ d.exam_prep_min then 1 else 0)

/-- app.py 511. -/
def hydration_met (d : DayRecord) : Bool := d.water.target_glasses ≤ d.water.glasses

/-- app.py 512. -/
def allow_complete (d : DayRecord) : Bool :=
  hydration_met d && decide (2 ≤ other_hits d)

/-- app.py 523-534: the streak update inside the completion handler. -/
def streakUpdate (last : Option String) (streak : ℕ) (today : PyDate) : ℕ :=
  match last with
  | none => 1
  | some str =>
    if str = "" then 1
    else
      match PyDate.fromIso str with
      | none => 1
      | some last_d => if dateDiffDays today last_d = 1 then streak + 1 else 1

/-- Modelled from the spec (section 4.2, `completeDay`): the streak
increments exactly when the stored last-completed day parses as a date
exactly one calendar day before today; any other prior value (absent,
unparseable, equal to today, or not one day prior) resets it to 1. -/
def streakSpec (last : Option String) (streak : ℕ) (today : PyDate) : ℕ :=
  match last with
  | none => 1
  | some str =>
    match PyDate.fromIso str with
    | none => 1
    | some last_d => if dateDiffDays today last_d = 1 then streak + 1 else 1

/-- app.py 520-536: the "Mark day complete" button; the `disabled=` guard
(completed or not allowed) makes the press a no-op. -/
def completeHandler (today : PyDate) (s : AppState) : AppState :=
  if s.day.completed || !allow_complete s.day then s
  else
    { profile := { s.profile with
        streak := streakUpdate s.profile.last_day s.profile.streak today
        last_day := some today.toIso
        xp := s.profile.xp + xp_for "day_complete" }
      day := { s.day with completed := true } }

/-- A button-guarded stage of the script: the handler body runs only when
its button was the one pressed this rerun. -/
def stageIf (c : Prop) [Decidable c] (f : AppState → AppState) (s : AppState) : AppState :=
  if c then f s else s

/-- The script body from the top through the "Add fruit" button
(app.py 267-361), in source order. -/
def preFruitBadge (inp : Inputs) (b : Button) (s : AppState) : AppState :=
  stageIf (b = Button.addFruit) (fruitHandler inp.fruit_choice inp.other_fruit)
  (hydrationBadgeUpdate
  (stageIf (b = Button.drink) drinkHandler
  (targetsUpdate inp s)))

/-- The script body from the protein section through the screen-time
section (app.py 383-477), in source order. -/
def postFruitBadge (inp : Inputs) (b : Button) (s : AppState) : AppState :=
  stageIf (b = Button.saveScreen)
    (screenHandler inp.create_min inp.fun_minutes inp.parent_limit)
  (stageIf (b = Button.saveExam) (examHandler inp.exam_min)
  (stageIf (b = Button.saveIndoor) (indoorHandler inp.indoor_sel)
  (stageIf (b = Button.saveOutdoor) (outdoorHandler inp.outdoor_sel)
  (schoolHandler inp.school_done
  (proteinBadgeUpdate
  (stageIf (b = Button.saveProtein) (proteinHandler inp.protein_sel) s))))))

/-- The script body from the top through the screen-time section
(everything except the completion button), in source order. -/
def rerunCore (inp : Inputs) (b : Button) (s : AppState) : AppState :=
  postFruitBadge inp b (fruitBadgeUpdate (preFruitBadge inp b s))

/-- One full Streamlit rerun of app.py with widget values `inp` and button
`b` pressed (`Button.idle` when the rerun was not caused by a button). -/
def rerun (inp : Inputs) (b : Button) (s : AppState) : AppState :=
  stageIf (b = Button.complete) (completeHandler inp.today) (rerunCore inp b s)

/-! ### Concrete states and inputs used in witnesses and counterexamples -/

/-- A fresh day record in which 4 glasses have been drunk. -/
def freshDay : DayRecord :=
  { water := { glasses := 4, target_glasses := 0, target_ml := 0 }
    fruit_items := [], protein_items := [], school_work := false
    outdoor := [], indoor := [], exam_prep_min := 0
    screen := { create := 0, fun_minutes := 0, limit := 60 }, completed := false }

def freshState : AppState :=
  { profile := { xp := 0, badges := [], streak := 0, last_day := none }, day := freshDay }

/-- Widget values for a 25 kg, 8-year-old boy (water target 1200 ml = 5 glasses). -/
def baseInputs : Inputs :=
  { gender := "Boy", age := 8, weight := 25, height := 120, parent_limit := 60
    fruit_choice := "Apple", other_fruit := "", protein_sel := [], school_done := false
    outdoor_sel := [], indoor_sel := [], exam_min := 0, create_min := 0
    fun_minutes := 0, today := ⟨2025, 1, 2⟩ }

/-- Same child after the weight widget is raised to 90 kg (target 3150 ml = 13 glasses). -/
def heavyInputs : Inputs := { baseInputs with weight := 90 }

def schoolOnInputs : Inputs := { baseInputs with school_done := true }

/-- The fruit picker on "Other" with a whitespace-only typed name. -/
def otherInputs : Inputs :=
  { baseInputs with fruit_choice := "Other", other_fruit := "  " }

/-- A day on which 10 exam-prep minutes and 10 create minutes are already saved. -/
def examState : AppState :=
  { freshState with day :=
      { freshDay with
        exam_prep_min := 10
        screen := { create := 10, fun_minutes := 0, limit := 60 } } }

/-- Hydration target met (5 of 5) plus fruit and schoolwork: completion is allowed. -/
def allowedDay : DayRecord :=
  { freshDay with
    water := { glasses := 5, target_glasses := 5, target_ml := 1200 }
    fruit_items := ["Apple"]
    school_work := true }

def streakState : AppState :=
  { profile := { xp := 0, badges := [], streak := 2, last_day := some "2025-01-01" }
    day := allowedDay }

def completedState : AppState :=
  { streakState with day := { allowedDay with completed := true } }

/-- One fruit logged and the matching Bronze fruit badge recorded. -/
def fruitBadgeState : AppState :=
  { profile := { xp := 0, badges := [("fruit", "Bronze")], streak := 0, last_day := none }
    day := { freshDay with fruit_items := ["Apple"] } }

/-- One protein item saved and the matching Bronze protein badge recorded. -/
def proteinBadgeState : AppState :=
  { profile := { xp := 0, badges := [("protein", "Bronze")], streak := 0, last_day := none }
    day := { freshDay with protein_items := ["Egg"] } }

/-! ## Helper lemmas: association-list dictionaries -/

theorem dictGet_dictSet_self (m : List (String × String)) (k v : String) :
    dictGet (dictSet m k v) k = some v := by
  induction m with
  | nil => simp [dictSet, dictGet]
  | cons p rest ih =>
    obtain ⟨a, bv⟩ := p
    by_cases hak : a = k
    · subst hak; simp [dictSet, dictGet]
    · simp [dictSet, dictGet, hak, ih]

theorem dictGet_dictSet_ne (m : List (String × String)) (k k' v : String) (h : k' ≠ k) :
    dictGet (dictSet m k v) k' = dictGet m k' := by
  have hkk : ¬k = k' := fun hh => h hh.symm
  induction m with
  | nil => simp [dictSet, dictGet, hkk]
  | cons p rest ih =>
    obtain ⟨a, bv⟩ := p
    by_cases hak : a = k
    · subst hak
      simp [dictSet, dictGet, hkk]
    · simp [dictSet, dictGet, hak, ih]

/-! ## Helper lemmas: frame properties of the individual script stages -/

theorem stagePres {α : Type} (g : AppState → α) {f : AppState → AppState}
    (hf : ∀ s, g (f s) = g s) (c : Prop) [Decidable c] (s : AppState) :
    g (stageIf c f s) = g s := by
  unfold stageIf
  split
  · exact hf s
  · rfl

theorem stageMono {α : Type} [Preorder α] (g : AppState → α) {f : AppState → AppState}
    (hf : ∀ s, g s ≤ g (f s)) (c : Prop) [Decidable c] (s : AppState) :
    g s ≤ g (stageIf c f s) := by
  unfold stageIf
  split
  · exact hf s
  · exact le_rfl

theorem targetsUpdate_profile (inp : Inputs) (s : AppState) :
    (targetsUpdate inp s).profile = s.profile := rfl

theorem targetsUpdate_completed (inp : Inputs) (s : AppState) :
    (targetsUpdate inp s).day.completed = s.day.completed := rfl

theorem targetsUpdate_fruit (inp : Inputs) (s : AppState) :
    (targetsUpdate inp s).day.fruit_items = s.day.fruit_items := rfl

theorem targetsUpdate_protein (inp : Inputs) (s : AppState) :
    (targetsUpdate inp s).day.protein_items = s.day.protein_items := rfl

theorem drinkHandler_badges (s : AppState) :
    (drinkHandler s).profile.badges = s.profile.badges := rfl

theorem drinkHandler_completed (s : AppState) :
    (drinkHandler s).day.completed = s.day.completed := rfl

theorem drinkHandler_fruit (s : AppState) :
    (drinkHandler s).day.fruit_items = s.day.fruit_items := rfl

theorem drinkHandler_protein (s : AppState) :
    (drinkHandler s).day.protein_items = s.day.protein_items := rfl

theorem drinkHandler_xp_le (s : AppState) :
    s.profile.xp ≤ (drinkHandler s).profile.xp := by
  have h : (0 : ℤ) ≤ xp_for "water_glass" := by decide
  show s.profile.xp ≤ s.profile.xp + xp_for "water_glass"
  omega

theorem hydrationBadgeUpdate_day (s : AppState) :
    (hydrationBadgeUpdate s).day = s.day := by
  simp only [hydrationBadgeUpdate]
  split <;> rfl

theorem hydrationBadgeUpdate_xp (s : AppState) :
    (hydrationBadgeUpdate s).profile.xp = s.profile.xp := by
  simp only [hydrationBadgeUpdate]
  split <;> rfl

theorem hydrationBadgeUpdate_xp_le (s : AppState) :
    s.profile.xp ≤ (hydrationBadgeUpdate s).profile.xp :=
  le_of_eq (hydrationBadgeUpdate_xp s).symm

theorem hydrationBadgeUpdate_badges_ne (s : AppState) (k : String) (h : k ≠ "hydration") :
    dictGet (hydrationBadgeUpdate s).profile.badges k = dictGet s.profile.badges k := by
  simp only [hydrationBadgeUpdate]
  split
  · exact dictGet_dictSet_ne _ _ _ _ h
  · rfl

theorem fruitHandler_badges (c o : String) (s : AppState) :
    (fruitHandler c o s).profile.badges = s.profile.badges := by
  simp only [fruitHandler]
  split <;> split <;> rfl

theorem fruitHandler_completed (c o : String) (s : AppState) :
    (fruitHandler c o s).day.completed = s.day.completed := by
  simp only [fruitHandler]
  split <;> split <;> rfl

theorem fruitHandler_protein (c o : String) (s : AppState) :
    (fruitHandler c o s).day.protein_items = s.day.protein_items := by
  simp only [fruitHandler]
  split <;> split <;> rfl

theorem fruitHandler_fruit_le (c o : String) (s : AppState) :
    s.day.fruit_items.length ≤ (fruitHandler c o s).day.fruit_items.length := by
  simp only [fruitHandler]
  split <;> split
  all_goals try exact le_rfl
  all_goals simp

theorem fruitHandler_xp_le (c o : String) (s : AppState) :
    s.profile.xp ≤ (fruitHandler c o s).profile.xp := by
  have h : (0 : ℤ) ≤ xp_for "fruit" := by decide
  simp only [fruitHandler]
  split <;> split
  all_goals try exact le_rfl
  all_goals show s.profile.xp ≤ s.profile.xp + xp_for "fruit"
  all_goals omega

theorem fruitBadgeUpdate_day (s : AppState) :
    (fruitBadgeUpdate s).day = s.day := by
  simp only [fruitBadgeUpdate]
  split <;> rfl

theorem fruitBadgeUpdate_xp (s : AppState) :
    (fruitBadgeUpdate s).profile.xp = s.profile.xp := by
  simp only [fruitBadgeUpdate]
  split <;> rfl

theorem fruitBadgeUpdate_xp_le (s : AppState) :
    s.profile.xp ≤ (fruitBadgeUpdate s).profile.xp :=
  le_of_eq (fruitBadgeUpdate_xp s).symm

theorem fruitBadgeUpdate_badges_ne (s : AppState) (k : String) (h : k ≠ "fruit") :
    dictGet (fruitBadgeUpdate s).profile.badges k = dictGet s.profile.badges k := by
  simp only [fruitBadgeUpdate]
  split
  · exact dictGet_dictSet_ne _ _ _ _ h
  · rfl

theorem fruitBadgeUpdate_badges_self (s : AppState) (h : s.day.fruit_items ≠ []) :
    dictGet (fruitBadgeUpdate s).profile.badges "fruit"
      = some (countTier s.day.fruit_items.length) := by
  have hlen : s.day.fruit_items.length ≥ 1 := List.length_pos.mpr h
  simp only [fruitBadgeUpdate]
  rw [if_pos hlen]
  exact dictGet_dictSet_self _ _ _

theorem proteinHandler_badges (sel : List String) (s : AppState) :
    (proteinHandler sel s).profile.badges = s.profile.badges := by
  simp only [proteinHandler]
  split <;> rfl

theorem proteinHandler_completed (sel : List String) (s : AppState) :
    (proteinHandler sel s).day.completed = s.day.completed := by
  simp only [proteinHandler]
  split <;> rfl

theorem proteinHandler_fruit (sel : List String) (s : AppState) :
    (proteinHandler sel s).day.fruit_items = s.day.fruit_items := by
  simp only [proteinHandler]
  split <;> rfl

theorem proteinHandler_protein (sel : List String) (s : AppState) :
    (proteinHandler sel s).day.protein_items
      = (s.day.protein_items ++ sel).dedup := by
  simp only [proteinHandler]
  split <;> rfl

theorem proteinHandler_xp_le (sel : List String) (s : AppState) :
    s.profile.xp ≤ (proteinHandler sel s).profile.xp := by
  have h : (0 : ℤ) ≤ xp_for "protein" := by decide
  simp only [proteinHandler]
  split
  · show s.profile.xp ≤ s.profile.xp + xp_for "protein"
    omega
  · exact le_rfl

theorem proteinBadgeUpdate_day (s : AppState) :
    (proteinBadgeUpdate s).day = s.day := by
  simp only [proteinBadgeUpdate]
  split <;> rfl

theorem proteinBadgeUpdate_xp (s : AppState) :
    (proteinBadgeUpdate s).profile.xp = s.profile.xp := by
  simp only [proteinBadgeUpdate]
  split <;> rfl

theorem proteinBadgeUpdate_xp_le (s : AppState) :
    s.profile.xp ≤ (proteinBadgeUpdate s).profile.xp :=
  le_of_eq (proteinBadgeUpdate_xp s).symm

theorem proteinBadgeUpdate_badges_ne (s : AppState) (k : String) (h : k ≠ "protein") :
    dictGet (proteinBadgeUpdate s).profile.badges k = dictGet s.profile.badges k := by
  simp only [proteinBadgeUpdate]
  split
  · exact dictGet_dictSet_ne _ _ _ _ h
  · rfl

theorem proteinBadgeUpdate_badges_self (s : AppState) (h : s.day.protein_items ≠ []) :
    dictGet (proteinBadgeUpdate s).profile.badges "protein"
      = some (countTier s.day.protein_items.length) := by
  simp only [proteinBadgeUpdate]
  rw [if_pos h]
  exact dictGet_dictSet_self _ _ _

theorem schoolHandler_badges (ck : Bool) (s : AppState) :
    (schoolHandler ck s).profile.badges = s.profile.badges := by
  simp only [schoolHandler]
  split <;> rfl

theorem schoolHandler_completed (ck : Bool) (s : AppState) :
    (schoolHandler ck s).day.completed = s.day.completed := by
  simp only [schoolHandler]
  split <;> rfl

theorem schoolHandler_fruit (ck : Bool) (s : AppState) :
    (schoolHandler ck s).day.fruit_items = s.day.fruit_items := by
  simp only [schoolHandler]
  split <;> rfl

theorem schoolHandler_protein (ck : Bool) (s : AppState) :
    (schoolHandler ck s).day.protein_items = s.day.protein_items := by
  simp only [schoolHandler]
  split <;> rfl

theorem schoolHandler_xp (ck : Bool) (s : AppState) :
    (schoolHandler ck s).profile.xp
      = s.profile.xp + (if ck && !s.day.school_work then xp_for "school" else 0) := by
  by_cases hc : ck && !s.day.school_work
  · simp only [schoolHandler, if_pos hc]
  · simp only [schoolHandler, if_neg hc]
    simp

theorem schoolHandler_xp_le (ck : Bool) (s : AppState) :
    s.profile.xp ≤ (schoolHandler ck s).profile.xp := by
  have h : (0 : ℤ) ≤ xp_for "school" := by decide
  rw [schoolHandler_xp]
  split <;> omega

theorem outdoorHandler_badges (sel : List String) (s : AppState) :
    (outdoorHandler sel s).profile.badges = s.profile.badges := by
  simp only [outdoorHandler]
  split <;> rfl

theorem outdoorHandler_completed (sel : List String) (s : AppState) :
    (outdoorHandler sel s).day.completed = s.day.completed := by
  simp only [outdoorHandler]
  split <;> rfl

theorem outdoorHandler_fruit (sel : List String) (s : AppState) :
    (outdoorHandler sel s).day.fruit_items = s.day.fruit_items := by
  simp only [outdoorHandler]
  split <;> rfl

theorem outdoorHandler_protein (sel : List String) (s : AppState) :
    (outdoorHandler sel s).day.protein_items = s.day.protein_items := by
  simp only [outdoorHandler]
  split <;> rfl

theorem outdoorHandler_xp_le (sel : List String) (s : AppState) :
    s.profile.xp ≤ (outdoorHandler sel s).profile.xp := by
  have h : (0 : ℤ) ≤ xp_for "outdoor" := by decide
  simp only [outdoorHandler]
  split
  · show s.profile.xp ≤ s.profile.xp + xp_for "outdoor"
    omega
  · exact le_rfl

theorem indoorHandler_badges (sel : List String) (s : AppState) :
    (indoorHandler sel s).profile.badges = s.profile.badges := by
  simp only [indoorHandler]
  split <;> rfl

theorem indoorHandler_completed (sel : List String) (s : AppState) :
    (indoorHandler sel s).day.completed = s.day.completed := by
  simp only [indoorHandler]
  split <;> rfl

theorem indoorHandler_fruit (sel : List String) (s : AppState) :
    (indoorHandler sel s).day.fruit_items = s.day.fruit_items := by
  simp only [indoorHandler]
  split <;> rfl

theorem indoorHandler_protein (sel : List String) (s : AppState) :
    (indoorHandler sel s).day.protein_items = s.day.protein_items := by
  simp only [indoorHandler]
  split <;> rfl

theorem indoorHandler_xp_le (sel : List String) (s : AppState) :
    s.profile.xp ≤ (indoorHandler sel s).profile.xp := by
  have h : (0 : ℤ) ≤ xp_for "indoor" := by decide
  simp only [indoorHandler]
  split
  · show s.profile.xp ≤ s.profile.xp + xp_for "indoor"
    omega
  · exact le_rfl

theorem examHandler_badges (m : ℕ) (s : AppState) :
    (examHandler m s).profile.badges = s.profile.badges := rfl

theorem examHandler_completed (m : ℕ) (s : AppState) :
    (examHandler m s).day.completed = s.day.completed := rfl

theorem examHandler_fruit (m : ℕ) (s : AppState) :
    (examHandler m s).day.fruit_items = s.day.fruit_items := rfl

theorem examHandler_protein (m : ℕ) (s : AppState) :
    (examHandler m s).day.protein_items = s.day.protein_items := rfl

theorem examHandler_xp_le (m : ℕ) (s : AppState) :
    s.profile.xp ≤ (examHandler m s).profile.xp := by
  have h2 : xp_for "exam_5min" = 2 := by decide
  show s.profile.xp ≤ s.profile.xp + xp_for "exam_5min" * ((m / 5 : ℕ) : ℤ)
  rw [h2]
  omega

theorem screenHandler_badges (c f l : ℕ) (s : AppState) :
    (screenHandler c f l s).profile.badges = s.profile.badges := rfl

theorem screenHandler_completed (c f l : ℕ) (s : AppState) :
    (screenHandler c f l s).day.completed = s.day.completed := rfl

theorem screenHandler_fruit (c f l : ℕ) (s : AppState) :
    (screenHandler c f l s).day.fruit_items = s.day.fruit_items := rfl

theorem screenHandler_protein (c f l : ℕ) (s : AppState) :
    (screenHandler c f l s).day.protein_items = s.day.protein_items := rfl

theorem screenHandler_xp_le (c f l : ℕ) (s : AppState) :
    s.profile.xp ≤ (screenHandler c f l s).profile.xp := by
  have h2 : xp_for "screen_create_10min" = 4 := by decide
  show s.profile.xp ≤ s.profile.xp + xp_for "screen_create_10min" * ((c / 10 : ℕ) : ℤ)
  rw [h2]
  omega

theorem completeHandler_badges (t : PyDate) (s : AppState) :
    (completeHandler t s).profile.badges = s.profile.badges := by
  simp only [completeHandler]
  split <;> rfl

theorem completeHandler_fruit (t : PyDate) (s : AppState) :
    (completeHandler t s).day.fruit_items = s.day.fruit_items := by
  simp only [completeHandler]
  split <;> rfl

theorem completeHandler_protein (t : PyDate) (s : AppState) :
    (completeHandler t s).day.protein_items = s.day.protein_items := by
  simp only [completeHandler]
  split <;> rfl

theorem completeHandler_xp_le (t : PyDate) (s : AppState) :
    s.profile.xp ≤ (completeHandler t s).profile.xp := by
  have h : (0 : ℤ) ≤ xp_for "day_complete" := by decide
  simp only [completeHandler]
  split
  · exact le_rfl
  · show s.profile.xp ≤ s.profile.xp + xp_for "day_complete"
    omega

theorem completeHandler_of_completed (t : PyDate) (s : AppState)
    (h : s.day.completed = true) : completeHandler t s = s := by
  simp only [completeHandler, h]
  rfl

theorem hydrationBadgeUpdate_completed (s : AppState) :
    (hydrationBadgeUpdate s).day.completed = s.day.completed := by
  rw [hydrationBadgeUpdate_day]

theorem hydrationBadgeUpdate_fruit (s : AppState) :
    (hydrationBadgeUpdate s).day.fruit_items = s.day.fruit_items := by
  rw [hydrationBadgeUpdate_day]

theorem hydrationBadgeUpdate_protein (s : AppState) :
    (hydrationBadgeUpdate s).day.protein_items = s.day.protein_items := by
  rw [hydrationBadgeUpdate_day]

theorem fruitBadgeUpdate_completed (s : AppState) :
    (fruitBadgeUpdate s).day.completed = s.day.completed := by
  rw [fruitBadgeUpdate_day]

theorem fruitBadgeUpdate_fruit (s : AppState) :
    (fruitBadgeUpdate s).day.fruit_items = s.day.fruit_items := by
  rw [fruitBadgeUpdate_day]

theorem fruitBadgeUpdate_protein (s : AppState) :
    (fruitBadgeUpdate s).day.protein_items = s.day.protein_items := by
  rw [fruitBadgeUpdate_day]

theorem proteinBadgeUpdate_completed (s : AppState) :
    (proteinBadgeUpdate s).day.completed = s.day.completed := by
  rw [proteinBadgeUpdate_day]

theorem proteinBadgeUpdate_fruit (s : AppState) :
    (proteinBadgeUpdate s).day.fruit_items = s.day.fruit_items := by
  rw [proteinBadgeUpdate_day]

theorem proteinBadgeUpdate_protein_items (s : AppState) :
    (proteinBadgeUpdate s).day.protein_items = s.day.protein_items := by
  rw [proteinBadgeUpdate_day]

/-! ## Helper lemmas: tiers and deduplicated lists -/

theorem countTier_rank_mono {m n : ℕ} (hm : 1 ≤ m) (hmn : m ≤ n) :
    tierRank (countTier m) ≤ tierRank (countTier n) := by
  have key : ∀ j : ℕ, j ≤ 3 → tierRank (BADGE_LADDER.getD j "") = j + 1 := by
    intro j hj
    interval_cases j <;> decide
  unfold countTier
  rw [key _ (by omega), key _ (by omega)]
  omega

theorem dedup_append_ne_nil (l l' : List String) (h : l ≠ []) :
    (l ++ l').dedup ≠ [] := by
  intro hh
  rw [List.dedup_eq_nil] at hh
  exact h (List.append_eq_nil.mp hh).1

theorem dedup_append_length (l l' : List String) (h : l.Nodup) :
    l.length ≤ (l ++ l').dedup.length := by
  have h1 : l.length = l.dedup.length := by rw [List.dedup_eq_self.mpr h]
  rw [h1, ← List.card_toFinset, ← List.card_toFinset]
  apply Finset.card_le_card
  rw [List.toFinset_append]
  exact Finset.subset_union_left

/-! ## Helper lemmas: properties of whole-rerun compositions -/

theorem rerunCore_completed (inp : Inputs) (b : Button) (s : AppState) :
    (rerunCore inp b s).day.completed = s.day.completed := by
  unfold rerunCore postFruitBadge preFruitBadge
  refine Eq.trans (stagePres (fun st => st.day.completed)
    (screenHandler_completed _ _ _) _ _) ?_
  refine Eq.trans (stagePres (fun st => st.day.completed)
    (examHandler_completed _) _ _) ?_
  refine Eq.trans (stagePres (fun st => st.day.completed)
    (indoorHandler_completed _) _ _) ?_
  refine Eq.trans (stagePres (fun st => st.day.completed)
    (outdoorHandler_completed _) _ _) ?_
  refine Eq.trans (schoolHandler_completed _ _) ?_
  refine Eq.trans (proteinBadgeUpdate_completed _) ?_
  refine Eq.trans (stagePres (fun st => st.day.completed)
    (proteinHandler_completed _) _ _) ?_
  refine Eq.trans (fruitBadgeUpdate_completed _) ?_
  refine Eq.trans (stagePres (fun st => st.day.completed)
    (fruitHandler_completed _ _) _ _) ?_
  refine Eq.trans (hydrationBadgeUpdate_completed _) ?_
  refine Eq.trans (stagePres (fun st => st.day.completed)
    drinkHandler_completed _ _) ?_
  exact targetsUpdate_completed inp s

theorem preFruitBadge_fruit_le (inp : Inputs) (b : Button) (s : AppState) :
    s.day.fruit_items.length ≤ (preFruitBadge inp b s).day.fruit_items.length := by
  unfold preFruitBadge
  refine le_trans ?_ (stageMono (fun st => st.day.fruit_items.length)
    (fruitHandler_fruit_le _ _) _ _)
  refine le_trans ?_ (le_of_eq (congrArg List.length (hydrationBadgeUpdate_fruit _)).symm)
  refine le_trans ?_ (stageMono (fun st => st.day.fruit_items.length)
    (fun s => le_of_eq (congrArg List.length (drinkHandler_fruit s)).symm) _ _)
  exact le_of_eq (congrArg List.length (targetsUpdate_fruit inp s)).symm

theorem rerunTail_fruitGet (inp : Inputs) (b : Button) (X : AppState) :
    dictGet (stageIf (b = Button.complete) (completeHandler inp.today)
        (postFruitBadge inp b X)).profile.badges "fruit"
      = dictGet X.profile.badges "fruit" := by
  unfold postFruitBadge
  refine Eq.trans (stagePres (fun st => dictGet st.profile.badges "fruit")
    (fun s => congrArg (fun bd => dictGet bd "fruit") (completeHandler_badges inp.today s)) _ _) ?_
  refine Eq.trans (stagePres (fun st => dictGet st.profile.badges "fruit")
    (fun s => congrArg (fun bd => dictGet bd "fruit") (screenHandler_badges _ _ _ s)) _ _) ?_
  refine Eq.trans (stagePres (fun st => dictGet st.profile.badges "fruit")
    (fun s => congrArg (fun bd => dictGet bd "fruit") (examHandler_badges _ s)) _ _) ?_
  refine Eq.trans (stagePres (fun st => dictGet st.profile.badges "fruit")
    (fun s => congrArg (fun bd => dictGet bd "fruit") (indoorHandler_badges _ s)) _ _) ?_
  refine Eq.trans (stagePres (fun st => dictGet st.profile.badges "fruit")
    (fun s => congrArg (fun bd => dictGet bd "fruit") (outdoorHandler_badges _ s)) _ _) ?_
  refine Eq.trans (congrArg (fun bd => dictGet bd "fruit") (schoolHandler_badges _ _)) ?_
  refine Eq.trans (proteinBadgeUpdate_badges_ne _ "fruit" (by decide)) ?_
  refine Eq.trans (stagePres (fun st => dictGet st.profile.badges "fruit")
    (fun s => congrArg (fun bd => dictGet bd "fruit") (proteinHandler_badges _ s)) _ _) ?_
  rfl

theorem rerunTail_fruit_items (inp : Inputs) (b : Button) (X : AppState) :
    (stageIf (b = Button.complete) (completeHandler inp.today)
        (postFruitBadge inp b X)).day.fruit_items
      = X.day.fruit_items := by
  unfold postFruitBadge
  refine Eq.trans (stagePres (fun st => st.day.fruit_items)
    (completeHandler_fruit inp.today) _ _) ?_
  refine Eq.trans (stagePres (fun st => st.day.fruit_items)
    (screenHandler_fruit _ _ _) _ _) ?_
  refine Eq.trans (stagePres (fun st => st.day.fruit_items)
    (examHandler_fruit _) _ _) ?_
  refine Eq.trans (stagePres (fun st => st.day.fruit_items)
    (indoorHandler_fruit _) _ _) ?_
  refine Eq.trans (stagePres (fun st => st.day.fruit_items)
    (outdoorHandler_fruit _) _ _) ?_
  refine Eq.trans (schoolHandler_fruit _ _) ?_
  refine Eq.trans (proteinBadgeUpdate_fruit _) ?_
  refine Eq.trans (stagePres (fun st => st.day.fruit_items)
    (proteinHandler_fruit _) _ _) ?_
  rfl

theorem rerun_fruit_state (inp : Inputs) (b : Button) (s : AppState)
    (h : s.day.fruit_items ≠ []) :
    dictGet (rerun inp b s).profile.badges "fruit"
        = some (countTier (rerun inp b s).day.fruit_items.length)
      ∧ s.day.fruit_items.length ≤ (rerun inp b s).day.fruit_items.length := by
  have hpre : 1 ≤ (preFruitBadge inp b s).day.fruit_items.length :=
    le_trans (List.length_pos.mpr h) (preFruitBadge_fruit_le inp b s)
  have hprene : (preFruitBadge inp b s).day.fruit_items ≠ [] :=
    List.ne_nil_of_length_pos hpre
  have h1 : rerun inp b s = stageIf (b = Button.complete) (completeHandler inp.today)
      (postFruitBadge inp b (fruitBadgeUpdate (preFruitBadge inp b s))) := rfl
  constructor
  · rw [h1, rerunTail_fruitGet, rerunTail_fruit_items,
      fruitBadgeUpdate_badges_self _ hprene, fruitBadgeUpdate_fruit]
  · rw [h1, rerunTail_fruit_items, fruitBadgeUpdate_fruit]
    exact preFruitBadge_fruit_le inp b s

theorem preProtein_eq (inp : Inputs) (b : Button) (s : AppState) :
    (fruitBadgeUpdate (preFruitBadge inp b s)).day.protein_items
      = s.day.protein_items := by
  unfold preFruitBadge
  refine Eq.trans (fruitBadgeUpdate_protein _) ?_
  refine Eq.trans (stagePres (fun st => st.day.protein_items)
    (fruitHandler_protein _ _) _ _) ?_
  refine Eq.trans (hydrationBadgeUpdate_protein _) ?_
  refine Eq.trans (stagePres (fun st => st.day.protein_items)
    drinkHandler_protein _ _) ?_
  exact targetsUpdate_protein inp s

theorem tailPB_proteinGet (inp : Inputs) (b : Button) (Z : AppState) :
    dictGet (stageIf (b = Button.complete) (completeHandler inp.today)
        (stageIf (b = Button.saveScreen)
          (screenHandler inp.create_min inp.fun_minutes inp.parent_limit)
        (stageIf (b = Button.saveExam) (examHandler inp.exam_min)
        (stageIf (b = Button.saveIndoor) (indoorHandler inp.indoor_sel)
        (stageIf (b = Button.saveOutdoor) (outdoorHandler inp.outdoor_sel)
        (schoolHandler inp.school_done
        (proteinBadgeUpdate Z))))))).profile.badges "protein"
      = dictGet (proteinBadgeUpdate Z).profile.badges "protein" := by
  refine Eq.trans (stagePres (fun st => dictGet st.profile.badges "protein")
    (fun s => congrArg (fun bd => dictGet bd "protein") (completeHandler_badges inp.today s)) _ _) ?_
  refine Eq.trans (stagePres (fun st => dictGet st.profile.badges "protein")
    (fun s => congrArg (fun bd => dictGet bd "protein") (screenHandler_badges _ _ _ s)) _ _) ?_
  refine Eq.trans (stagePres (fun st => dictGet st.profile.badges "protein")
    (fun s => congrArg (fun bd => dictGet bd "protein") (examHandler_badges _ s)) _ _) ?_
  refine Eq.trans (stagePres (fun st => dictGet st.profile.badges "protein")
    (fun s => congrArg (fun bd => dictGet bd "protein") (indoorHandler_badges _ s)) _ _) ?_
  refine Eq.trans (stagePres (fun st => dictGet st.profile.badges "protein")
    (fun s => congrArg (fun bd => dictGet bd "protein") (outdoorHandler_badges _ s)) _ _) ?_
  exact congrArg (fun bd => dictGet bd "protein") (schoolHandler_badges _ _)

theorem tailPB_protein_items (inp : Inputs) (b : Button) (Z : AppState) :
    (stageIf (b = Button.complete) (completeHandler inp.today)
        (stageIf (b = Button.saveScreen)
          (screenHandler inp.create_min inp.fun_minutes inp.parent_limit)
        (stageIf (b = Button.saveExam) (examHandler inp.exam_min)
        (stageIf (b = Button.saveIndoor) (indoorHandler inp.indoor_sel)
        (stageIf (b = Button.saveOutdoor) (outdoorHandler inp.outdoor_sel)
        (schoolHandler inp.school_done
        (proteinBadgeUpdate Z))))))).day.protein_items
      = Z.day.protein_items := by
  refine Eq.trans (stagePres (fun st => st.day.protein_items)
    (completeHandler_protein inp.today) _ _) ?_
  refine Eq.trans (stagePres (fun st => st.day.protein_items)
    (screenHandler_protein _ _ _) _ _) ?_
  refine Eq.trans (stagePres (fun st => st.day.protein_items)
    (examHandler_protein _) _ _) ?_
  refine Eq.trans (stagePres (fun st => st.day.protein_items)
    (indoorHandler_protein _) _ _) ?_
  refine Eq.trans (stagePres (fun st => st.day.protein_items)
    (outdoorHandler_protein _) _ _) ?_
  refine Eq.trans (schoolHandler_protein _ _) ?_
  exact proteinBadgeUpdate_protein_items Z

/-! ## Helper lemmas: recommendation engine and completion semantics -/

theorem min_ml_eq_minTable (age : ℤ) (g : String) :
    min_ml_calc age g = minTable age g := by
  unfold min_ml_calc minTable
  split_ifs <;> first | rfl | (exfalso; omega)

theorem streakUpdate_eq_spec (last : Option String) (streak : ℕ) (t : PyDate) :
    streakUpdate last streak t = streakSpec last streak t := by
  cases last with
  | none => rfl
  | some str =>
    by_cases hs : str = ""
    · subst hs
      rfl
    · simp only [streakUpdate, streakSpec, if_neg hs]

theorem completeHandler_effect (t : PyDate) (s : AppState)
    (hc : s.day.completed = false) (ha : allow_complete s.day = true) :
    (completeHandler t s).profile.streak
        = streakUpdate s.profile.last_day s.profile.streak t
      ∧ (completeHandler t s).profile.last_day = some t.toIso
      ∧ (completeHandler t s).profile.xp = s.profile.xp + 30
      ∧ (completeHandler t s).day.completed = true := by
  have hcond : (s.day.completed || !allow_complete s.day) = false := by
    rw [hc, ha]
    rfl
  have h30 : xp_for "day_complete" = 30 := by decide
  refine ⟨?_, ?_, ?_, ?_⟩ <;>
    simp only [completeHandler, hcond, Bool.false_eq_true, if_false, h30]

theorem other_hits_count (d : DayRecord) :
    other_hits d
      = List.count true
          [decide (d.fruit_items ≠ []), decide (d.protein_items ≠ []),
           d.school_work, decide (d.outdoor ≠ []), decide (d.indoor ≠ []),
           decide (10 ≤ d.exam_prep_min)] := by
  by_cases h1 : d.fruit_items = [] <;>
    by_cases h2 : d.protein_items = [] <;>
    by_cases h3 : d.school_work = true <;>
    by_cases h4 : d.outdoor = [] <;>
    by_cases h5 : d.indoor = [] <;>
    by_cases h6 : 10 ≤ d.exam_prep_min <;>
    simp_all [other_hits, List.count_cons]

theorem fruitHandler_noop (c o : String) (s : AppState)
    (hc : c = "Other") (ho : o.trim = "") : fruitHandler c o s = s := by
  subst hc
  simp [fruitHandler, ho]

theorem rerun_protein_state (inp : Inputs) (b : Button) (s : AppState)
    (hne : s.day.protein_items ≠ []) (hnodup : s.day.protein_items.Nodup) :
    ∃ n : ℕ, s.day.protein_items.length ≤ n
      ∧ dictGet (rerun inp b s).profile.badges "protein" = some (countTier n) := by
  refine ⟨(stageIf (b = Button.saveProtein) (proteinHandler inp.protein_sel)
      (fruitBadgeUpdate (preFruitBadge inp b s))).day.protein_items.length, ?_, ?_⟩
  · unfold stageIf
    split
    · rw [proteinHandler_protein, preProtein_eq]
      exact dedup_append_length _ _ hnodup
    · rw [preProtein_eq]
  · have hZne : (stageIf (b = Button.saveProtein) (proteinHandler inp.protein_sel)
        (fruitBadgeUpdate (preFruitBadge inp b s))).day.protein_items ≠ [] := by
      unfold stageIf
      split
      · rw [proteinHandler_protein, preProtein_eq]
        exact dedup_append_ne_nil _ _ hne
      · rw [preProtein_eq]
        exact hne
    have h1 : rerun inp b s
        = stageIf (b = Button.complete) (completeHandler inp.today)
            (stageIf (b = Button.saveScreen)
              (screenHandler inp.create_min inp.fun_minutes inp.parent_limit)
            (stageIf (b = Button.saveExam) (examHandler inp.exam_min)
            (stageIf (b = Button.saveIndoor) (indoorHandler inp.indoor_sel)
            (stageIf (b = Button.saveOutdoor) (outdoorHandler inp.outdoor_sel)
            (schoolHandler inp.school_done
            (proteinBadgeUpdate
              (stageIf (b = Button.saveProtein) (proteinHandler inp.protein_sel)
                (fruitBadgeUpdate (preFruitBadge inp b s))))))))) := rfl
    rw [h1, tailPB_proteinGet, proteinBadgeUpdate_badges_self _ hZne]

/-! ## Claims -/

/-- C4: for all age a, gender g and weight w > 0, the computed glass count
equals ceil(max(w*35, minTable(a,g)) / 250) with the spec's minimum table,
the liters field equals round(target/1000, 2), and the glass count is
monotonically non-decreasing in w for fixed a, g. -/
theorem c4_water_glasses_spec :
    (∀ (a : ℤ) (g : String) (w h : ℚ), 0 < w →
        (calculate_water_intake a g w h).glasses = specGlasses a g w
          ∧ (calculate_water_intake a g w h).liters
              = pyRound2 (max (w * 35) (minTable a g) / 1000))
    ∧ (∀ (a : ℤ) (g : String) (h w₁ w₂ : ℚ), 0 < w₁ → w₁ ≤ w₂ →
        (calculate_water_intake a g w₁ h).glasses
          ≤ (calculate_water_intake a g w₂ h).glasses) := by
  constructor
  · intro a g w h hw
    have hb : base_ml_calc w = w * 35 := if_pos hw
    constructor
    · show ⌈max (base_ml_calc w) (min_ml_calc a g) / 250⌉ = specGlasses a g w
      rw [hb, min_ml_eq_minTable]
      rfl
    · show pyRound2 (max (base_ml_calc w) (min_ml_calc a g) / 1000)
          = pyRound2 (max (w * 35) (minTable a g) / 1000)
      rw [hb, min_ml_eq_minTable]
  · intro a g h w₁ w₂ hw1 hw12
    have hb1 : base_ml_calc w₁ = w₁ * 35 := if_pos hw1
    have hb2 : base_ml_calc w₂ = w₂ * 35 := if_pos (lt_of_lt_of_le hw1 hw12)
    show ⌈max (base_ml_calc w₁) (min_ml_calc a g) / 250⌉
        ≤ ⌈max (base_ml_calc w₂) (min_ml_calc a g) / 250⌉
    rw [hb1, hb2]
    apply Int.ceil_le_ceil
    gcongr

/-- Witness for C4 at age 8, gender "Boy", weight 25 (and 25 ≤ 30 for
monotonicity): every hypothesis of `c4_water_glasses_spec` is discharged
at a concrete input. -/
theorem c4_water_glasses_spec_witness :
    (0 : ℚ) < 25 ∧ (25 : ℚ) ≤ 30
      ∧ (calculate_water_intake 8 "Boy" 25 120).glasses = specGlasses 8 "Boy" 25
      ∧ (calculate_water_intake 8 "Boy" 25 120).glasses
          ≤ (calculate_water_intake 8 "Boy" 30 120).glasses :=
  ⟨by norm_num, by norm_num,
   (c4_water_glasses_spec.1 8 "Boy" 25 120 (by norm_num)).1,
   c4_water_glasses_spec.2 8 "Boy" 120 25 30 (by norm_num) (by norm_num)⟩

/-- C2 counterexample: an input that is invalid in every respect named by
the claim (weight 0 = non-positive, age 20 = out of range, gender "" =
blank) yields 2000 ml and 8 glasses, not the claimed safe-default result of
1200 ml and 5 glasses — the engine does not substitute weight 25 / age 8 /
gender boy. -/
theorem c2_water_defaults_cex :
    (calculate_water_intake 20 "" 0 0).ml = 2000
      ∧ (calculate_water_intake 20 "" 0 0).glasses = 8
      ∧ ¬((calculate_water_intake 20 "" 0 0).ml = 1200
            ∧ (calculate_water_intake 20 "" 0 0).glasses = 5) := by
  with_unfolding_all decide

/-- C2 amended: the computation is total (never raises; an unparseable
weight enters as 0); for non-positive weight it substitutes a fallback
BASE of 1200 ml while the minimum is still taken from the actual age and
gender, so weight=0, age=0, gender="" yields 1200 ml and 5 glasses, but
other invalid inputs need not yield the default's result. -/
theorem c2_water_fallback_amended :
    (∀ (a : ℤ) (g : String) (w h : ℚ), w ≤ 0 →
        (calculate_water_intake a g w h).ml
            = roundHalfEven (max 1200 (minTable a g))
          ∧ (calculate_water_intake a g w h).glasses
              = ⌈max 1200 (minTable a g) / 250⌉)
    ∧ (calculate_water_intake 0 "" 0 0).ml = 1200
    ∧ (calculate_water_intake 0 "" 0 0).glasses = 5 := by
  refine ⟨?_, by with_unfolding_all decide, by with_unfolding_all decide⟩
  intro a g w h hw
  have hb : base_ml_calc w = 1200 := if_neg (not_lt.mpr hw)
  constructor
  · show roundHalfEven (max (base_ml_calc w) (min_ml_calc a g))
        = roundHalfEven (max 1200 (minTable a g))
    rw [hb, min_ml_eq_minTable]
  · show ⌈max (base_ml_calc w) (min_ml_calc a g) / 250⌉
        = ⌈max 1200 (minTable a g) / 250⌉
    rw [hb, min_ml_eq_minTable]

/-- Witness for C2 (amended) at weight 0, age 20, gender "": the
non-positive-weight hypothesis is discharged concretely. -/
theorem c2_water_fallback_amended_witness :
    (0 : ℚ) ≤ 0
      ∧ (calculate_water_intake 20 "" 0 0).ml
          = roundHalfEven (max 1200 (minTable 20 "")) :=
  ⟨le_refl 0, (c2_water_fallback_amended.1 20 "" 0 0 (le_refl 0)).1⟩

/-- C1 counterexample: with 10 exam-prep minutes previously recorded,
saving 25 awards 10 xp (the claim demands exactly 6 = 2*((25-10)//5));
saving the lower value 5 awards 2 xp (the claim demands 0) while the
stored minutes do update to 5; with 10 create minutes recorded, saving
create=25 awards 8 xp (positive-delta semantics would give 4). -/
theorem c1_exam_screen_delta_cex :
    (examHandler 25 examState).profile.xp = examState.profile.xp + 10
      ∧ (10 : ℤ) ≠ 6
      ∧ (examHandler 5 examState).profile.xp = examState.profile.xp + 2
      ∧ (2 : ℤ) ≠ 0
      ∧ (examHandler 5 examState).day.exam_prep_min = 5
      ∧ (screenHandler 25 0 60 examState).profile.xp = examState.profile.xp + 8
      ∧ (8 : ℤ) ≠ 4 := by
  with_unfolding_all decide

/-- C1 amended: every save of exam-prep minutes stores the new value and
awards 2 points per full 5-minute increment of the NEW TOTAL (independent
of the previously recorded value, so a re-save or a decrease re-awards on
the total and never awards negative points); every screen save stores the
new create value and awards 4 points per full 10-minute increment of the
new create total. -/
theorem c1_exam_screen_total_amended :
    (∀ (m : ℕ) (s : AppState),
        (examHandler m s).day.exam_prep_min = m
          ∧ (examHandler m s).profile.xp = s.profile.xp + 2 * ((m / 5 : ℕ) : ℤ))
    ∧ (∀ (c f l : ℕ) (s : AppState),
        (screenHandler c f l s).day.screen.create = c
          ∧ (screenHandler c f l s).profile.xp
              = s.profile.xp + 4 * ((c / 10 : ℕ) : ℤ)) := by
  constructor
  · intro m s
    refine ⟨rfl, ?_⟩
    have h2 : xp_for "exam_5min" = 2 := by decide
    show s.profile.xp + xp_for "exam_5min" * ((m / 5 : ℕ) : ℤ)
        = s.profile.xp + 2 * ((m / 5 : ℕ) : ℤ)
    rw [h2]
  · intro c f l s
    refine ⟨rfl, ?_⟩
    have h4 : xp_for "screen_create_10min" = 4 := by decide
    show s.profile.xp + xp_for "screen_create_10min" * ((c / 10 : ℕ) : ℤ)
        = s.profile.xp + 4 * ((c / 10 : ℕ) : ℤ)
    rw [h4]

/-- C6: day completion is allowed iff the hydration target is met and at
least 2 of the six secondary conditions hold (fruit, protein, schoolwork,
outdoor, indoor, exam-prep ≥ 10); in particular the hydration-met +
fruit + schoolwork day is allowed. -/
theorem c6_day_completion_gate :
    (∀ d : DayRecord,
        allow_complete d = true ↔
          (d.water.target_glasses ≤ d.water.glasses
            ∧ 2 ≤ List.count true
                [decide (d.fruit_items ≠ []), decide (d.protein_items ≠ []),
                 d.school_work, decide (d.outdoor ≠ []), decide (d.indoor ≠ []),
                 decide (10 ≤ d.exam_prep_min)]))
    ∧ allow_complete allowedDay = true := by
  constructor
  · intro d
    rw [← other_hits_count]
    unfold allow_complete hydration_met
    simp [Bool.and_eq_true, decide_eq_true_iff]
  · with_unfolding_all decide

/-- C5: completing a not-yet-completed, allowed day updates the streak per
the spec rule (increment exactly when the stored last-completed day is one
calendar day before today, else reset to 1) and stores today as the last
completed day; concretely, last = "2025-01-01" with today = 2025-01-02
increments streak 2 to 3, and today = 2025-01-05 resets it to 1. -/
theorem c5_streak_update :
    (∀ (s : AppState) (today : PyDate),
        s.day.completed = false → allow_complete s.day = true →
          (completeHandler today s).profile.streak
              = streakSpec s.profile.last_day s.profile.streak today
            ∧ (completeHandler today s).profile.last_day = some today.toIso)
    ∧ (completeHandler ⟨2025, 1, 2⟩ streakState).profile.streak = 3
    ∧ (completeHandler ⟨2025, 1, 5⟩ streakState).profile.streak = 1 := by
  refine ⟨?_, by with_unfolding_all decide, by with_unfolding_all decide⟩
  intro s today hc ha
  obtain ⟨h1, h2, _, _⟩ := completeHandler_effect today s hc ha
  exact ⟨h1.trans (streakUpdate_eq_spec _ _ _), h2⟩

/-- Witness for C5 at the 2025-01-01 → 2025-01-02 scenario. -/
theorem c5_streak_update_witness :
    streakState.day.completed = false
      ∧ allow_complete streakState.day = true
      ∧ (completeHandler ⟨2025, 1, 2⟩ streakState).profile.streak
          = streakSpec streakState.profile.last_day streakState.profile.streak
              ⟨2025, 1, 2⟩
      ∧ (completeHandler ⟨2025, 1, 2⟩ streakState).profile.last_day
          = some (PyDate.toIso ⟨2025, 1, 2⟩) :=
  ⟨rfl, by with_unfolding_all decide,
   (c5_streak_update.1 streakState ⟨2025, 1, 2⟩ rfl (by with_unfolding_all decide)).1,
   (c5_streak_update.1 streakState ⟨2025, 1, 2⟩ rfl (by with_unfolding_all decide)).2⟩

/-- C7: once a day record's completed flag is true it stays true across
every possible rerun, and a further press of the completion button is
exactly a no-op (equal to a rerun with no button), so the 30-point bonus
cannot be granted a second time. -/
theorem c7_completed_one_way :
    (∀ (inp : Inputs) (b : Button) (s : AppState),
        s.day.completed = true → (rerun inp b s).day.completed = true)
    ∧ (∀ (inp : Inputs) (s : AppState),
        s.day.completed = true →
          rerun inp Button.complete s = rerun inp Button.idle s) := by
  constructor
  · intro inp b s h
    have hcore : (rerunCore inp b s).day.completed = true :=
      (rerunCore_completed inp b s).trans h
    unfold rerun stageIf
    split
    · rw [completeHandler_of_completed _ _ hcore]
      exact hcore
    · exact hcore
  · intro inp s h
    have hcore : (rerunCore inp Button.complete s).day.completed = true :=
      (rerunCore_completed inp Button.complete s).trans h
    have h1 : rerun inp Button.complete s
        = completeHandler inp.today (rerunCore inp Button.complete s) := rfl
    have h2 : rerunCore inp Button.complete s = rerunCore inp Button.idle s := rfl
    have h3 : rerun inp Button.idle s = rerunCore inp Button.idle s := rfl
    rw [h1, completeHandler_of_completed _ _ hcore, h3, h2]

/-- Witness for C7 at a concrete completed state. -/
theorem c7_completed_one_way_witness :
    completedState.day.completed = true
      ∧ (rerun baseInputs Button.drink completedState).day.completed = true
      ∧ rerun baseInputs Button.complete completedState
          = rerun baseInputs Button.idle completedState :=
  ⟨rfl, c7_completed_one_way.1 baseInputs Button.drink completedState rfl,
   c7_completed_one_way.2 baseInputs completedState rfl⟩

set_option maxRecDepth 8192 in
/-- C8 counterexample: from a fresh state, three reruns with the
schoolwork checkbox at true, then false, then true (no buttons pressed)
award 20 xp in total — all of it from the schoolwork bonus — exceeding the
claimed at-most-10 bound, because unchecking resets the flag and the next
check is a fresh false→true transition. -/
theorem c8_school_toggle_cex :
    (rerun schoolOnInputs Button.idle (rerun baseInputs Button.idle
        (rerun schoolOnInputs Button.idle freshState))).profile.xp = 20
      ∧ ¬((20 : ℤ) ≤ 10) := by
  with_unfolding_all decide

/-- C8 amended: the 10-point schoolwork bonus is awarded exactly on each
false→true transition of the checkbox, and the stored flag simply mirrors
the checkbox (it is not one-way), so the total schoolwork xp in a day is
10 per false→true transition and can exceed 10 when the box is unchecked
and re-checked. -/
theorem c8_school_transition_amended :
    ∀ (ck : Bool) (s : AppState),
      (schoolHandler ck s).profile.xp
          = s.profile.xp + (if ck = true ∧ s.day.school_work = false then 10 else 0)
        ∧ (schoolHandler ck s).day.school_work = ck := by
  intro ck s
  constructor
  · rw [schoolHandler_xp]
    have h10 : xp_for "school" = 10 := by decide
    rw [h10]
    congr 1
    by_cases hsw : s.day.school_work <;> cases ck <;> simp [hsw]
  · rfl

/-- C9: the profile's cumulative xp is monotonically non-decreasing: every
rerun (covering water, fruit, protein, schoolwork, outdoor, indoor, exam
prep, screen time and day completion) leaves xp unchanged or increases it. -/
theorem c9_xp_monotone (inp : Inputs) (b : Button) (s : AppState) :
    s.profile.xp ≤ (rerun inp b s).profile.xp := by
  unfold rerun rerunCore postFruitBadge preFruitBadge
  refine le_trans ?_ (stageMono (fun st => st.profile.xp) (completeHandler_xp_le _) _ _)
  refine le_trans ?_ (stageMono (fun st => st.profile.xp) (screenHandler_xp_le _ _ _) _ _)
  refine le_trans ?_ (stageMono (fun st => st.profile.xp) (examHandler_xp_le _) _ _)
  refine le_trans ?_ (stageMono (fun st => st.profile.xp) (indoorHandler_xp_le _) _ _)
  refine le_trans ?_ (stageMono (fun st => st.profile.xp) (outdoorHandler_xp_le _) _ _)
  refine le_trans ?_ (schoolHandler_xp_le _ _)
  refine le_trans ?_ (proteinBadgeUpdate_xp_le _)
  refine le_trans ?_ (stageMono (fun st => st.profile.xp) (proteinHandler_xp_le _) _ _)
  refine le_trans ?_ (fruitBadgeUpdate_xp_le _)
  refine le_trans ?_ (stageMono (fun st => st.profile.xp) (fruitHandler_xp_le _ _) _ _)
  refine le_trans ?_ (hydrationBadgeUpdate_xp_le _)
  refine le_trans ?_ (stageMono (fun st => st.profile.xp) drinkHandler_xp_le _ _)
  exact le_of_eq (congrArg Profile.xp (targetsUpdate_profile inp s)).symm

/-- C10: pressing "Add fruit" with choice "Other" and a blank (or
whitespace-only) typed name is a no-op: the handler returns the state
unchanged, and a rerun with that press equals the rerun with no press at
all — no field of the profile or day record changes. -/
theorem c10_blank_fruit_noop :
    (∀ (c o : String) (s : AppState),
        c = "Other" → o.trim = "" → fruitHandler c o s = s)
    ∧ (∀ (inp : Inputs) (s : AppState),
        inp.fruit_choice = "Other" → inp.other_fruit.trim = "" →
          rerun inp Button.addFruit s = rerun inp Button.idle s) := by
  constructor
  · exact fun c o s hc ho => fruitHandler_noop c o s hc ho
  · intro inp s hc ho
    have h1 : rerun inp Button.addFruit s
        = postFruitBadge inp Button.addFruit (fruitBadgeUpdate
            (fruitHandler inp.fruit_choice inp.other_fruit
              (hydrationBadgeUpdate (targetsUpdate inp s)))) := rfl
    have h2 : rerun inp Button.idle s
        = postFruitBadge inp Button.idle (fruitBadgeUpdate
            (hydrationBadgeUpdate (targetsUpdate inp s))) := rfl
    have h3 : ∀ X : AppState,
        postFruitBadge inp Button.addFruit X = postFruitBadge inp Button.idle X :=
      fun X => rfl
    rw [h1, h2, fruitHandler_noop _ _ _ hc ho, h3]

/-- Witness for C10 with the concrete whitespace-only name "  ". -/
theorem c10_blank_fruit_noop_witness :
    otherInputs.fruit_choice = "Other"
      ∧ otherInputs.other_fruit.trim = ""
      ∧ fruitHandler "Other" "  " freshState = freshState
      ∧ rerun otherInputs Button.addFruit freshState
          = rerun otherInputs Button.idle freshState :=
  ⟨rfl, by with_unfolding_all decide,
   c10_blank_fruit_noop.1 "Other" "  " freshState rfl (by with_unfolding_all decide),
   c10_blank_fruit_noop.2 otherInputs freshState rfl (by with_unfolding_all decide)⟩

/-- C3 counterexample: hydration Gold is recorded after a rerun with
weight 25 (target 5 glasses, 4 drunk, ratio 0.8), and the very next rerun
with the weight widget at 90 (target 13 glasses, ratio 4/13) overwrites
the recorded tier with Bronze — a strict lowering of the recorded tier
within a session, contradicting the claimed monotonicity. -/
theorem c3_badge_tier_cex :
    dictGet (rerun baseInputs Button.idle freshState).profile.badges "hydration"
        = some "Gold"
      ∧ dictGet (rerun heavyInputs Button.idle
            (rerun baseInputs Button.idle freshState)).profile.badges "hydration"
          = some "Bronze"
      ∧ tierRank "Bronze" < tierRank "Gold" := by
  with_unfolding_all decide

/-- C3 amended: the hydration badge is a live snapshot that a rerun can
lower when the recomputed target rises (see the counterexample); only
hydration, fruit and protein are ever recorded — every rerun leaves all
other badge keys (in particular outdoor and indoor) unchanged; and the
fruit (resp. protein) recorded tier, once it reflects today's item count
(protein items being duplicate-free, as every reachable state has), never
decreases across reruns, because item counts never shrink. -/
theorem c3_badge_tier_amended :
    (∀ (inp : Inputs) (b : Button) (s : AppState) (k : String),
        k ≠ "hydration" → k ≠ "fruit" → k ≠ "protein" →
          dictGet (rerun inp b s).profile.badges k = dictGet s.profile.badges k)
    ∧ (∀ (inp : Inputs) (b : Button) (s : AppState),
        s.day.fruit_items ≠ [] →
        dictGet s.profile.badges "fruit" = some (countTier s.day.fruit_items.length) →
          getBadgeRank s.profile "fruit" ≤ getBadgeRank (rerun inp b s).profile "fruit")
    ∧ (∀ (inp : Inputs) (b : Button) (s : AppState),
        s.day.protein_items ≠ [] → s.day.protein_items.Nodup →
        dictGet s.profile.badges "protein"
            = some (countTier s.day.protein_items.length) →
          getBadgeRank s.profile "protein"
            ≤ getBadgeRank (rerun inp b s).profile "protein") := by
  refine ⟨?_, ?_, ?_⟩
  · intro inp b s k h1 h2 h3
    unfold rerun rerunCore postFruitBadge preFruitBadge
    refine Eq.trans (stagePres (fun st => dictGet st.profile.badges k)
      (fun s => congrArg (fun bd => dictGet bd k) (completeHandler_badges inp.today s)) _ _) ?_
    refine Eq.trans (stagePres (fun st => dictGet st.profile.badges k)
      (fun s => congrArg (fun bd => dictGet bd k) (screenHandler_badges _ _ _ s)) _ _) ?_
    refine Eq.trans (stagePres (fun st => dictGet st.profile.badges k)
      (fun s => congrArg (fun bd => dictGet bd k) (examHandler_badges _ s)) _ _) ?_
    refine Eq.trans (stagePres (fun st => dictGet st.profile.badges k)
      (fun s => congrArg (fun bd => dictGet bd k) (indoorHandler_badges _ s)) _ _) ?_
    refine Eq.trans (stagePres (fun st => dictGet st.profile.badges k)
      (fun s => congrArg (fun bd => dictGet bd k) (outdoorHandler_badges _ s)) _ _) ?_
    refine Eq.trans (congrArg (fun bd => dictGet bd k) (schoolHandler_badges _ _)) ?_
    refine Eq.trans (proteinBadgeUpdate_badges_ne _ k h3) ?_
    refine Eq.trans (stagePres (fun st => dictGet st.profile.badges k)
      (fun s => congrArg (fun bd => dictGet bd k) (proteinHandler_badges _ s)) _ _) ?_
    refine Eq.trans (fruitBadgeUpdate_badges_ne _ k h2) ?_
    refine Eq.trans (stagePres (fun st => dictGet st.profile.badges k)
      (fun s => congrArg (fun bd => dictGet bd k) (fruitHandler_badges _ _ s)) _ _) ?_
    refine Eq.trans (hydrationBadgeUpdate_badges_ne _ k h1) ?_
    refine Eq.trans (stagePres (fun st => dictGet st.profile.badges k)
      (fun s => congrArg (fun bd => dictGet bd k) (drinkHandler_badges s)) _ _) ?_
    exact congrArg (fun p => dictGet p.badges k) (targetsUpdate_profile inp s)
  · intro inp b s hne hbadge
    have hfs := rerun_fruit_state inp b s hne
    have hlen1 : 1 ≤ s.day.fruit_items.length := List.length_pos.mpr hne
    unfold getBadgeRank
    rw [hbadge, hfs.1]
    simp only [Option.getD_some]
    exact countTier_rank_mono hlen1 hfs.2
  · intro inp b s hne hnodup hbadge
    obtain ⟨n, hle, hget⟩ := rerun_protein_state inp b s hne hnodup
    unfold getBadgeRank
    rw [hbadge, hget]
    simp only [Option.getD_some]
    exact countTier_rank_mono (List.length_pos.mpr hne) hle

/-- Witness for C3 (amended) at concrete states: the "outdoor" key is
untouched by a rerun, and the consistent fruit/protein Bronze badges never
lose rank. -/
theorem c3_badge_tier_amended_witness :
    ("outdoor" ≠ "hydration" ∧ "outdoor" ≠ "fruit" ∧ "outdoor" ≠ "protein"
      ∧ dictGet (rerun baseInputs Button.idle fruitBadgeState).profile.badges "outdoor"
          = dictGet fruitBadgeState.profile.badges "outdoor")
    ∧ (fruitBadgeState.day.fruit_items ≠ []
      ∧ dictGet fruitBadgeState.profile.badges "fruit"
          = some (countTier fruitBadgeState.day.fruit_items.length)
      ∧ getBadgeRank fruitBadgeState.profile "fruit"
          ≤ getBadgeRank (rerun baseInputs Button.idle fruitBadgeState).profile "fruit")
    ∧ (proteinBadgeState.day.protein_items ≠ []
      ∧ proteinBadgeState.day.protein_items.Nodup
      ∧ dictGet proteinBadgeState.profile.badges "protein"
          = some (countTier proteinBadgeState.day.protein_items.length)
      ∧ getBadgeRank proteinBadgeState.profile "protein"
          ≤ getBadgeRank (rerun baseInputs Button.idle proteinBadgeState).profile "protein") :=
  ⟨⟨by decide, by decide, by decide,
    c3_badge_tier_amended.1 baseInputs Button.idle fruitBadgeState "outdoor"
      (by decide) (by decide) (by decide)⟩,
   ⟨by with_unfolding_all decide, by with_unfolding_all decide,
    c3_badge_tier_amended.2.1 baseInputs Button.idle fruitBadgeState
      (by with_unfolding_all decide) (by with_unfolding_all decide)⟩,
   ⟨by with_unfolding_all decide, by with_unfolding_all decide,
    by with_unfolding_all decide,
    c3_badge_tier_amended.2.2 baseInputs Button.idle proteinBadgeState
      (by with_unfolding_all decide) (by with_unfolding_all decide)
      (by with_unfolding_all decide)⟩⟩

end BachpanBalance
